import Mathlib

/-!
Verification development for the AssistantAidan front-end image-attachment
and session-correlation workflow.  The definitions below are shallow
embeddings of the TypeScript source: the file-intake validators
(`CombinedInput.processFiles`, `ImageUploader.processFiles`), the
upload/session coordinator (`UnifiedInputBox`), the request binder
(`GeneratePage.analyze` / `performGeneration`), and the axios response
interceptor handling 401 responses.
-/

namespace AssistantAidanFE

/-- JavaScript whitespace as the sources use it (space, tab, newline,
carriage return). -/
def isSpaceChar (c : Char) : Bool :=
  c == ' ' || c == '\t' || c == '\n' || c == '\r'

/-- JavaScript `String.prototype.trim`: strip leading and trailing
whitespace. -/
def jsTrim (s : String) : String :=
  String.mk ((((s.data.dropWhile isSpaceChar).reverse).dropWhile isSpaceChar).reverse)

/-- A browser `File` as the validators observe it: display name, byte
size, and MIME type. -/
structure FileData where
  name : String
  size : Nat
  mimeType : String
deriving DecidableEq

namespace CombinedInput

/-- The `UploadedImage` record of CombinedInput.tsx: the underlying file, the
object-URL preview handle, the display name and byte size. -/
structure UploadedImage where
  file : FileData
  preview : String
  originalName : String
  size : Nat
deriving DecidableEq

/-- The component state touched by `processFiles`: the accepted image list
and the inline error message (empty string means no error, as in the
`useState<string>('')` of the source). -/
structure State where
  images : List UploadedImage
  error : String
deriving DecidableEq

/-- The `allowedTypes` list of `validateFile` in CombinedInput.tsx. -/
def allowedTypes : List String :=
  ["image/jpeg", "image/jpg", "image/png", "image/gif", "image/webp"]

/-- Embedding of `validateFile` in CombinedInput.tsx: type check first, then the
per-file size limit (`maxSizePerImage` is in MB).  Returns `some message`
on rejection, `none` on success, like the `string | null` of the source. -/
def validateFile (maxSizePerImage : Nat) (file : FileData) : Option String :=
  if ¬ allowedTypes.contains file.mimeType then
    some ("Invalid file type. Only " ++ String.intercalate ", " allowedTypes
      ++ " are allowed.")
  else if file.size > maxSizePerImage * 1024 * 1024 then
    some ("File size must be less than " ++ toString maxSizePerImage ++ "MB.")
  else
    none

/-- The duplicate test of `processFiles`: an already accepted image with
the same file name and file size. -/
def isDuplicate (images : List UploadedImage) (file : FileData) : Bool :=
  images.any (fun img => img.file.name == file.name && img.file.size == file.size)

/-- One iteration of the `fileArray.forEach` loop in `processFiles`.  The
accumulator carries (`newImages`, `errorMessage`); a validation failure
overwrites `errorMessage` and skips the file, a duplicate is skipped
silently, otherwise the file is appended with a fresh preview handle
(`mk` stands for `URL.createObjectURL`). -/
def stepFile (mk : FileData → String) (maxSizePerImage : Nat)
    (images : List UploadedImage) (acc : List UploadedImage × String)
    (file : FileData) : List UploadedImage × String :=
  match validateFile maxSizePerImage file with
  | some e => (acc.1, e)
  | none =>
    if isDuplicate images file then acc
    else (acc.1 ++ [⟨file, mk file, file.name, file.size⟩], acc.2)

/-- Embedding of `processFiles` in CombinedInput.tsx.  Returns the new component state
together with the `onImagesChange` payload (`none` when the callback is
not invoked because the batch was rejected). -/
def processFiles (mk : FileData → String) (maxImages maxSizePerImage : Nat)
    (s : State) (files : List FileData) : State × Option (List FileData) :=
  let fileArray := files
  if s.images.length + fileArray.length > maxImages then
    ({ s with error := "Maximum " ++ toString maxImages ++ " images allowed." },
     none)
  else
    let r := fileArray.foldl (stepFile mk maxSizePerImage s.images) ([], "")
    if r.2 ≠ "" then
      ({ s with error := r.2 }, none)
    else
      let updatedImages := s.images ++ r.1
      ({ images := updatedImages, error := "" },
       some (updatedImages.map (·.file)))

end CombinedInput

namespace ImageUploader

/-- The `UploadedImage` record of ImageUploader (part_002): file, data-URL
preview, filename and byte size. -/
structure UploadedImage where
  file : FileData
  preview : String
  filename : String
  size : Nat
deriving DecidableEq

/-- Embedding of `processFiles` in ImageUploader (part_002): filter to image MIME
types, reject when none remain, when the image count exceeds `maxFiles`,
or when some image exceeds `maxSizeMB`; otherwise produce one preview per
accepted file and deliver them through `onImagesSelected` (modelled as the
`Except.ok` payload).  `mk` stands for the `FileReader` data-URL
production. -/
def processFiles (mk : FileData → String) (maxFiles maxSizeMB : Nat)
    (files : List FileData) : Except String (List UploadedImage) :=
  let fileArray := files
  let imageFiles := fileArray.filter (fun f => f.mimeType.startsWith "image/")
  if imageFiles.length = 0 then
    .error "Please select image files only"
  else if imageFiles.length > maxFiles then
    .error ("Maximum " ++ toString maxFiles ++ " images allowed")
  else if (imageFiles.filter (fun f => f.size > maxSizeMB * 1024 * 1024)).length > 0 then
    .error ("Some files exceed " ++ toString maxSizeMB ++ "MB limit")
  else
    .ok (imageFiles.map (fun f => ⟨f, mk f, f.name, f.size⟩))

end ImageUploader

namespace UnifiedInputBox

/-- The `ImagePreview` record of UnifiedInputBox.tsx, after
`handleImagesSelected` has populated the OCR fields. -/
structure ImagePreview where
  preview : String
  filename : String
  size : Nat
  detectedJiraKeys : List String
  ocrConfidence : Nat
deriving DecidableEq

/-- The `useState` cells of UnifiedInputBox.tsx that the claims concern. -/
structure State where
  images : List ImagePreview
  imageSessionId : Option String
  detectedJiraKeys : List String
  showDetectedKeys : Bool
  uploadError : Option String
deriving DecidableEq

/-- One per-image record of the `/generations/upload-images` response
(`data.images[i]`), per the documented API shape. -/
structure ServerImage where
  filename : String
  detectedJiraKeys : List String
  ocrConfidence : Nat
deriving DecidableEq

/-- The `data` object of a successful `/generations/upload-images`
response. -/
structure UploadResponse where
  sessionId : String
  images : List ServerImage
  detectedJiraKeys : List String
deriving DecidableEq

/-- The body of the `uploadedImages.map((img, index) => ...)` arrow in
`handleImagesSelected`.  `r?` is `data.images[index]` (absent when the
index is out of range).  JavaScript truthiness of the `||` fallbacks:
an empty server filename string is falsy, so the local filename is kept;
arrays are always truthy, so present `detectedJiraKeys` are kept verbatim;
`ocrConfidence || 0` maps 0 to 0 and is the identity on naturals. -/
def mergeImage (img : ImageUploader.UploadedImage) (r? : Option ServerImage) :
    ImagePreview :=
  { preview := img.preview
    filename := match r? with
      | some r => if r.filename = "" then img.filename else r.filename
      | none => img.filename
    size := img.size
    detectedJiraKeys := match r? with
      | some r => r.detectedJiraKeys
      | none => []
    ocrConfidence := match r? with
      | some r => r.ocrConfidence
      | none => 0 }

/-- Success path of `handleImagesSelected` in UnifiedInputBox.tsx: build
`imagePreviews` by positional index over the uploaded images, install the
server session id and aggregate detected keys, open the suggestion panel
when keys were detected, and clear any upload error. -/
def handleImagesSelectedOk (s : State)
    (uploadedImages : List ImageUploader.UploadedImage)
    (resp : UploadResponse) : State :=
  let imagePreviews :=
    uploadedImages.enum.map (fun p => mergeImage p.2 (resp.images.get? p.1))
  { images := imagePreviews
    imageSessionId := some resp.sessionId
    detectedJiraKeys := resp.detectedJiraKeys
    showDetectedKeys :=
      if resp.detectedJiraKeys.length > 0 then true else s.showDetectedKeys
    uploadError := none }

/-- An outbound API side effect (method and URL). -/
structure ApiCall where
  method : String
  url : String
deriving DecidableEq

/-- The `images.filter((_, i) => i !== index)` expression of `handleRemoveImage`. -/
def removeAtIndex {α : Type} (l : List α) (index : Nat) : List α :=
  (l.enum.filter (fun p => p.1 ≠ index)).map (·.2)

/-- Embedding of `handleRemoveImage` in UnifiedInputBox.tsx: drop the image at `index`;
when no image remains, fire one best-effort DELETE for the session — the
source guards it with `if (imageSessionId)`, so a held empty-string id is
falsy and fires nothing — then clear the session id, the detected keys
and the suggestion panel. -/
def handleRemoveImage (s : State) (index : Nat) : State × List ApiCall :=
  let newImages := removeAtIndex s.images index
  if newImages.length = 0 then
    let calls := match s.imageSessionId with
      | some sid =>
        if sid = "" then []
        else [⟨"DELETE", "/generations/image-sessions/" ++ sid⟩]
      | none => []
    ({ s with images := newImages, imageSessionId := none,
              detectedJiraKeys := [], showDetectedKeys := false }, calls)
  else
    ({ s with images := newImages }, [])

/-- The spec's session invariant: a session id is held iff at least one
image is attached. -/
def sessionInvariant (s : State) : Prop :=
  s.imageSessionId.isSome ↔ s.images ≠ []

/-- The `disabled` expression of the Analyze button in UnifiedInputBox.tsx:
`analyzing || !value.trim() || generating`. -/
def analyzeDisabled (value : String) (analyzing generating : Bool) : Bool :=
  analyzing || jsTrim value == "" || generating

/-- The `disabled` expression of the Generate button in UnifiedInputBox.tsx:
`!value || generating || analyzing`. -/
def generateDisabled (value : String) (analyzing generating : Bool) : Bool :=
  value == "" || generating || analyzing

/-- The `imageSessionId || undefined` argument of `handleAnalyze` and `handleGenerate`:
a held empty-string id is falsy and collapses to `undefined`. -/
def handleAnalyzeArg (imageSessionId : Option String) : Option String :=
  match imageSessionId with
  | some sid => if sid = "" then none else some sid
  | none => none

end UnifiedInputBox

namespace GeneratePage

/-- JSON body of the prelight / testcases POST built in GeneratePage.tsx:
`{ issueKey }`, with `imageSessionId` added only when a session id was
passed and is truthy. -/
structure Payload where
  issueKey : String
  imageSessionId : Option String
deriving DecidableEq

/-- One outbound HTTP request of the request binder. -/
structure Request where
  method : String
  url : String
  payload : Payload
deriving DecidableEq

/-- A successful prelight response body, per the documented API shape. -/
structure PrelightData where
  issueKey : String
  title : String
  isUiStory : Bool
  attachments : Nat
  estimatedTokens : Nat
  estimatedCost : String
deriving DecidableEq

/-- The `data` object of a successful testcases response, per the
documented API shape. -/
structure GenData where
  issueKey : String
  generationTimeSeconds : Nat
  markdown : String
  generationId : String
  imagesUsed : Nat
deriving DecidableEq

/-- Outcome of an awaited API call: a success value, or a failure carrying
`err.response.data.error` when the server supplied one. -/
inductive ApiOutcome (α : Type)
  | success (v : α)
  | failure (serverError : Option String)
deriving DecidableEq

/-- A result slot of GeneratePage: an error object (`{ error: msg }`) or a
success value. -/
inductive Slot (α : Type)
  | errorMsg (msg : String)
  | value (v : α)
deriving DecidableEq

/-- The `useState` cells of GeneratePage.tsx. -/
structure PageState where
  issueKey : String
  prelight : Option (Slot PrelightData)
  genResult : Option (Slot GenData)
  analyzing : Bool
  generating : Bool
deriving DecidableEq

/-- Embedding of `analyze(imageSessionId?)` in GeneratePage.tsx, run to completion
against the given call outcome.  Empty trimmed key: return before any
request.  Otherwise: one POST to /generations/prelight whose body holds
the trimmed key plus the session id when truthy; on success the prelight
slot holds the response, on failure the server error or the fixed
fallback; the analyzing flag ends false (the `finally` clause). -/
def analyze (s : PageState) (imageSessionId : Option String)
    (outcome : ApiOutcome PrelightData) : PageState × List Request :=
  if jsTrim s.issueKey = "" then (s, [])
  else
    let payload : Payload :=
      { issueKey := jsTrim s.issueKey
        imageSessionId := match imageSessionId with
          | some sid => if sid = "" then none else some sid
          | none => none }
    let req : Request := ⟨"POST", "/generations/prelight", payload⟩
    let prelightResult := match outcome with
      | .success v => Slot.value v
      | .failure e => Slot.errorMsg (e.getD "Analysis failed")
    ({ s with prelight := some prelightResult, analyzing := false }, [req])

/-- Embedding of `performGeneration(imageSessionId?)` in GeneratePage.tsx, run to
completion against the given call outcome, mirroring `analyze` with the
testcases endpoint, the genResult slot and the generating flag. -/
def performGeneration (s : PageState) (imageSessionId : Option String)
    (outcome : ApiOutcome GenData) : PageState × List Request :=
  if jsTrim s.issueKey = "" then (s, [])
  else
    let payload : Payload :=
      { issueKey := jsTrim s.issueKey
        imageSessionId := match imageSessionId with
          | some sid => if sid = "" then none else some sid
          | none => none }
    let req : Request := ⟨"POST", "/generations/testcases", payload⟩
    let genResult := match outcome with
      | .success v => Slot.value v
      | .failure e => Slot.errorMsg (e.getD "Generation failed")
    ({ s with genResult := some genResult, generating := false }, [req])

/-- The `disabled` expression of the Analyze button in the CombinedInput
variant of GeneratePage (part_001): `analyzing || !issueKey.trim()`. -/
def analyzeDisabledV1 (issueKey : String) (analyzing : Bool) : Bool :=
  analyzing || jsTrim issueKey == ""

/-- The `disabled` expression of the Generate button in the CombinedInput
variant of GeneratePage (part_001): `!issueKey || generating`. -/
def generateDisabledV1 (issueKey : String) (generating : Bool) : Bool :=
  issueKey == "" || generating

end GeneratePage

namespace ApiClient

/-- The token and user held by the global auth store. -/
structure AuthState where
  accessToken : Option String
  user : Option String
deriving DecidableEq

/-- Modelled from the spec: the auth store implementation
(src/state/auth) is not part of the provided sources; per the spec, the
store holds token and user and `logout` clears it. -/
def logout (_a : AuthState) : AuthState :=
  { accessToken := none, user := none }

/-- A browser navigation effect; `replaceTo` is
`window.location.replace`, which does not add a history entry. -/
inductive NavEffect
  | replaceTo (path : String)
deriving DecidableEq

/-- The error branch of the axios response interceptor (part_000): on a
401 response clear the auth state, and unless already on the login or
register page issue one history-replacing navigation to /login; any other
error leaves auth and history untouched.  `status` is
`error.response?.status` (absent when there was no response). -/
def responseInterceptorOnError (status : Option Nat) (pathname : String)
    (auth : AuthState) : AuthState × List NavEffect :=
  if status = some 401 then
    let auth2 := logout auth
    if pathname ≠ "/login" ∧ pathname ≠ "/register" then
      (auth2, [NavEffect.replaceTo "/login"])
    else
      (auth2, [])
  else
    (auth, [])

end ApiClient

end AssistantAidanFE

namespace AssistantAidanFE

namespace UnifiedInputBox

lemma removeAtIndex_nil {α : Type} (i : Nat) : removeAtIndex ([] : List α) i = [] := rfl

lemma removeAtIndex_zero_of_length_one {α : Type} (l : List α) (h : l.length = 1) :
    removeAtIndex l 0 = [] := by
  cases l with
  | nil => rfl
  | cons a rest =>
    cases rest with
    | nil => rfl
    | cons b r2 => simp at h

lemma handleRemoveImage_sessionInvariant (t : State) (i : Nat)
    (h : sessionInvariant t) : sessionInvariant (handleRemoveImage t i).1 := by
  unfold handleRemoveImage
  by_cases hz : (removeAtIndex t.images i).length = 0
  · simp [hz, sessionInvariant, List.length_eq_zero.mp hz]
  · simp [hz, sessionInvariant]
    have hne : removeAtIndex t.images i ≠ [] := by
      intro hnil
      exact hz (by rw [hnil]; rfl)
    have himgs : t.images ≠ [] := by
      intro hnil
      exact hne (by rw [hnil]; exact removeAtIndex_nil i)
    unfold sessionInvariant at h
    rw [h]
    simp [himgs, hne]

end UnifiedInputBox

/-- C1: removing the only remaining attached image clears the local
session state (images emptied, session id dropped, detected keys and
suggestion panel cleared) and issues exactly one release call carrying
the session id (held and truthy, i.e. non-empty, as the source's
`if (imageSessionId)` guard requires); moreover removal preserves the
invariant that a session id is held iff at least one image is attached. -/
theorem c1_remove_last_image_clears_session (s : UnifiedInputBox.State) (sid : String)
    (hlen : s.images.length = 1) (hsid : s.imageSessionId = some sid)
    (hne : sid ≠ "") :
    (UnifiedInputBox.handleRemoveImage s 0).1.images = [] ∧
    (UnifiedInputBox.handleRemoveImage s 0).1.imageSessionId = none ∧
    (UnifiedInputBox.handleRemoveImage s 0).1.detectedJiraKeys = [] ∧
    (UnifiedInputBox.handleRemoveImage s 0).1.showDetectedKeys = false ∧
    (UnifiedInputBox.handleRemoveImage s 0).2 =
      [⟨"DELETE", "/generations/image-sessions/" ++ sid⟩] ∧
    (∀ t : UnifiedInputBox.State, ∀ i : Nat, UnifiedInputBox.sessionInvariant t →
      UnifiedInputBox.sessionInvariant (UnifiedInputBox.handleRemoveImage t i).1) := by
  have hrem : UnifiedInputBox.removeAtIndex s.images 0 = [] :=
    UnifiedInputBox.removeAtIndex_zero_of_length_one s.images hlen
  refine ⟨?_, ?_, ?_, ?_, ?_,
    fun t i h => UnifiedInputBox.handleRemoveImage_sessionInvariant t i h⟩ <;>
  simp [UnifiedInputBox.handleRemoveImage, hrem, hsid, hne]

/-- Witness for C1 at a concrete one-image session. -/
theorem c1_remove_last_image_clears_session_witness :
    (UnifiedInputBox.handleRemoveImage
        ⟨[⟨"pv", "a.png", 3, ["ABC-1"], 88⟩], some "sess-1", ["ABC-1"], true, none⟩ 0).1.images
      = [] ∧
    (UnifiedInputBox.handleRemoveImage
        ⟨[⟨"pv", "a.png", 3, ["ABC-1"], 88⟩], some "sess-1", ["ABC-1"], true, none⟩ 0).1.imageSessionId
      = none ∧
    (UnifiedInputBox.handleRemoveImage
        ⟨[⟨"pv", "a.png", 3, ["ABC-1"], 88⟩], some "sess-1", ["ABC-1"], true, none⟩ 0).1.detectedJiraKeys
      = [] ∧
    (UnifiedInputBox.handleRemoveImage
        ⟨[⟨"pv", "a.png", 3, ["ABC-1"], 88⟩], some "sess-1", ["ABC-1"], true, none⟩ 0).1.showDetectedKeys
      = false ∧
    (UnifiedInputBox.handleRemoveImage
        ⟨[⟨"pv", "a.png", 3, ["ABC-1"], 88⟩], some "sess-1", ["ABC-1"], true, none⟩ 0).2
      = [⟨"DELETE", "/generations/image-sessions/" ++ "sess-1"⟩] ∧
    (∀ t : UnifiedInputBox.State, ∀ i : Nat, UnifiedInputBox.sessionInvariant t →
      UnifiedInputBox.sessionInvariant (UnifiedInputBox.handleRemoveImage t i).1) :=
  c1_remove_last_image_clears_session
    ⟨[⟨"pv", "a.png", 3, ["ABC-1"], 88⟩], some "sess-1", ["ABC-1"], true, none⟩
    "sess-1" (by decide) rfl (by decide)

/-- C2: when the already-accepted images plus the candidate batch would
exceed the configured maximum count, no file from the batch is accepted
and the count-limit message is shown. -/
theorem c2_count_limit_rejects_whole_batch (mk : FileData → String)
    (maxImages maxSizePerImage : Nat) (s : CombinedInput.State)
    (files : List FileData)
    (h : s.images.length + files.length > maxImages) :
    (CombinedInput.processFiles mk maxImages maxSizePerImage s files).1.images = s.images ∧
    (CombinedInput.processFiles mk maxImages maxSizePerImage s files).1.error =
      "Maximum " ++ toString maxImages ++ " images allowed." ∧
    (CombinedInput.processFiles mk maxImages maxSizePerImage s files).2 = none := by
  unfold CombinedInput.processFiles
  simp [h]

/-- Witness for C2: five images already accepted, a one-file batch at the
default maximum of five. -/
theorem c2_count_limit_rejects_whole_batch_witness :
    (CombinedInput.processFiles (fun f => f.name) 5 10
        ⟨[⟨⟨"a.png", 1, "image/png"⟩, "a.png", "a.png", 1⟩,
          ⟨⟨"b.png", 1, "image/png"⟩, "b.png", "b.png", 1⟩,
          ⟨⟨"c.png", 1, "image/png"⟩, "c.png", "c.png", 1⟩,
          ⟨⟨"d.png", 1, "image/png"⟩, "d.png", "d.png", 1⟩,
          ⟨⟨"e.png", 1, "image/png"⟩, "e.png", "e.png", 1⟩], ""⟩
        [⟨"f.png", 1, "image/png"⟩]).1.images =
      [⟨⟨"a.png", 1, "image/png"⟩, "a.png", "a.png", 1⟩,
       ⟨⟨"b.png", 1, "image/png"⟩, "b.png", "b.png", 1⟩,
       ⟨⟨"c.png", 1, "image/png"⟩, "c.png", "c.png", 1⟩,
       ⟨⟨"d.png", 1, "image/png"⟩, "d.png", "d.png", 1⟩,
       ⟨⟨"e.png", 1, "image/png"⟩, "e.png", "e.png", 1⟩] ∧
    (CombinedInput.processFiles (fun f => f.name) 5 10
        ⟨[⟨⟨"a.png", 1, "image/png"⟩, "a.png", "a.png", 1⟩,
          ⟨⟨"b.png", 1, "image/png"⟩, "b.png", "b.png", 1⟩,
          ⟨⟨"c.png", 1, "image/png"⟩, "c.png", "c.png", 1⟩,
          ⟨⟨"d.png", 1, "image/png"⟩, "d.png", "d.png", 1⟩,
          ⟨⟨"e.png", 1, "image/png"⟩, "e.png", "e.png", 1⟩], ""⟩
        [⟨"f.png", 1, "image/png"⟩]).1.error =
      "Maximum " ++ toString 5 ++ " images allowed." ∧
    (CombinedInput.processFiles (fun f => f.name) 5 10
        ⟨[⟨⟨"a.png", 1, "image/png"⟩, "a.png", "a.png", 1⟩,
          ⟨⟨"b.png", 1, "image/png"⟩, "b.png", "b.png", 1⟩,
          ⟨⟨"c.png", 1, "image/png"⟩, "c.png", "c.png", 1⟩,
          ⟨⟨"d.png", 1, "image/png"⟩, "d.png", "d.png", 1⟩,
          ⟨⟨"e.png", 1, "image/png"⟩, "e.png", "e.png", 1⟩], ""⟩
        [⟨"f.png", 1, "image/png"⟩]).2 = none :=
  c2_count_limit_rejects_whole_batch (fun f => f.name) 5 10 _ _ (by decide)

end AssistantAidanFE

namespace AssistantAidanFE

namespace CombinedInput

lemma validateFile_eq_none (maxSizePerImage : Nat) (f : FileData)
    (ht : allowedTypes.contains f.mimeType = true)
    (hs : ¬ f.size > maxSizePerImage * 1024 * 1024) :
    validateFile maxSizePerImage f = none := by
  have hm : f.mimeType ∈ allowedTypes := by simpa using ht
  unfold validateFile
  simp [hm, hs]

lemma validateFile_eq_size_message (maxSizePerImage : Nat) (f : FileData)
    (ht : allowedTypes.contains f.mimeType = true)
    (hs : f.size > maxSizePerImage * 1024 * 1024) :
    validateFile maxSizePerImage f =
      some ("File size must be less than " ++ toString maxSizePerImage ++ "MB.") := by
  have hm : f.mimeType ∈ allowedTypes := by simpa using ht
  unfold validateFile
  simp [hm, hs]

lemma string_append3_ne_empty (a b c : String) (ha : a.data ≠ []) :
    a ++ b ++ c ≠ "" := by
  intro h
  apply ha
  have hd : (a ++ b ++ c).data = "".data := by rw [h]
  rw [String.data_append, String.data_append] at hd
  exact (List.append_eq_nil.mp (List.append_eq_nil.mp hd).1).1

lemma sizeMessage_ne_empty (maxSizePerImage : Nat) :
    "File size must be less than " ++ toString maxSizePerImage ++ "MB." ≠ "" :=
  string_append3_ne_empty _ _ _ (by decide)

/-- The error accumulated by the `forEach` loop when every file in the
batch has an allowed type: the per-file size message exactly when some
file is oversized, the incoming error otherwise. -/
lemma foldl_stepFile_error_of_types_ok (mk : FileData → String)
    (maxSizePerImage : Nat) (imgs : List UploadedImage)
    (files : List FileData) (acc : List UploadedImage × String)
    (htypes : ∀ f ∈ files, allowedTypes.contains f.mimeType = true) :
    (files.foldl (stepFile mk maxSizePerImage imgs) acc).2 =
      if files.any (fun f => f.size > maxSizePerImage * 1024 * 1024) then
        "File size must be less than " ++ toString maxSizePerImage ++ "MB."
      else acc.2 := by
  induction files generalizing acc with
  | nil => simp
  | cons f rest ih =>
    have htf : allowedTypes.contains f.mimeType = true := htypes f (by simp)
    have htr : ∀ g ∈ rest, allowedTypes.contains g.mimeType = true :=
      fun g hg => htypes g (by simp [hg])
    by_cases hover : f.size > maxSizePerImage * 1024 * 1024
    · have hv := validateFile_eq_size_message maxSizePerImage f htf hover
      simp only [List.foldl_cons, stepFile, hv]
      rw [ih _ htr]
      by_cases h2 : rest.any (fun g => g.size > maxSizePerImage * 1024 * 1024) <;>
        simp [h2, hover]
    · have hv := validateFile_eq_none maxSizePerImage f htf hover
      simp only [List.foldl_cons, stepFile, hv]
      by_cases hd : isDuplicate imgs f <;>
        simp [hd, ih _ htr, hover]

/-- Behavior of `processFiles` on a one-file batch that is valid and not yet
accepted: the file is appended and the callback fires with the new list. -/
lemma processFiles_singleton_accept (mk : FileData → String)
    (maxImages maxSizePerImage : Nat) (s : State) (f : FileData)
    (hvalid : validateFile maxSizePerImage f = none)
    (hnodup : isDuplicate s.images f = false)
    (hcount : s.images.length + 1 ≤ maxImages) :
    processFiles mk maxImages maxSizePerImage s [f] =
      ({ images := s.images ++ [(⟨f, mk f, f.name, f.size⟩ : UploadedImage)],
         error := "" },
       some ((s.images ++ [(⟨f, mk f, f.name, f.size⟩ : UploadedImage)]).map (·.file))) := by
  unfold processFiles
  have hc : ¬ maxImages < s.images.length + 1 := by omega
  simp [hc, stepFile, hvalid, hnodup]

/-- Behavior of `processFiles` on a one-file batch that is valid but duplicates an
already accepted image: the image list is unchanged, the error cell is
cleared and the callback fires with the unchanged file list. -/
lemma processFiles_singleton_duplicate (mk : FileData → String)
    (maxImages maxSizePerImage : Nat) (s : State) (f : FileData)
    (hvalid : validateFile maxSizePerImage f = none)
    (hdup : isDuplicate s.images f = true)
    (hcount : s.images.length + 1 ≤ maxImages) :
    processFiles mk maxImages maxSizePerImage s [f] =
      ({ images := s.images, error := "" }, some (s.images.map (·.file))) := by
  unfold processFiles
  have hc : ¬ maxImages < s.images.length + 1 := by omega
  simp [hc, stepFile, hvalid, hdup]

end CombinedInput

/-- C3 counterexample: two files with identical name and byte size inside
one batch are both accepted by `processFiles` (the duplicate check only
compares against previously accepted images), so the accepted list gets
two entries, not one, and no error is produced. -/
theorem c3_same_batch_duplicate_counterexample :
    (CombinedInput.processFiles (fun f => f.name) 5 10 ⟨[], ""⟩
        [⟨"a.png", 100, "image/png"⟩, ⟨"a.png", 100, "image/png"⟩]).1.images.length = 2 ∧
    (CombinedInput.processFiles (fun f => f.name) 5 10 ⟨[], ""⟩
        [⟨"a.png", 100, "image/png"⟩, ⟨"a.png", 100, "image/png"⟩]).1.error = "" := by
  decide

/-- C3 amended: deduplication by (filename, byte size) holds across
batches: a file accepted in one batch and selected again in a later batch
yields exactly one matching Attached Image, and the second-batch
duplicate is dropped silently (no error). -/
theorem c3_dedup_across_batches (mk : FileData → String)
    (maxImages maxSizePerImage : Nat) (s : CombinedInput.State) (f : FileData)
    (hvalid : CombinedInput.validateFile maxSizePerImage f = none)
    (hnodup : CombinedInput.isDuplicate s.images f = false)
    (hcount : s.images.length + 2 ≤ maxImages) :
    ((CombinedInput.processFiles mk maxImages maxSizePerImage
        (CombinedInput.processFiles mk maxImages maxSizePerImage s [f]).1
        [f]).1.images.filter
      (fun img => img.file.name == f.name && img.file.size == f.size)).length = 1 ∧
    (CombinedInput.processFiles mk maxImages maxSizePerImage
        (CombinedInput.processFiles mk maxImages maxSizePerImage s [f]).1
        [f]).1.error = "" := by
  have h1 := CombinedInput.processFiles_singleton_accept mk maxImages maxSizePerImage
    s f hvalid hnodup (by omega)
  rw [h1]
  have hdup1 : CombinedInput.isDuplicate
      (s.images ++ [(⟨f, mk f, f.name, f.size⟩ : CombinedInput.UploadedImage)]) f = true := by
    unfold CombinedInput.isDuplicate
    simp
  have h2 := CombinedInput.processFiles_singleton_duplicate mk maxImages maxSizePerImage
    ⟨s.images ++ [(⟨f, mk f, f.name, f.size⟩ : CombinedInput.UploadedImage)], ""⟩ f
    hvalid hdup1 (by simp; omega)
  rw [h2]
  constructor
  · rw [List.filter_append]
    have hf0 : s.images.filter
        (fun img => img.file.name == f.name && img.file.size == f.size) = [] := by
      rw [List.filter_eq_nil_iff]
      intro img himg
      unfold CombinedInput.isDuplicate at hnodup
      rw [List.any_eq_false] at hnodup
      simpa using hnodup img himg
    simp [hf0]
  · rfl

/-- C5: a batch containing an oversized file (all files of allowed image
types, count within the limit) is rejected whole: the accepted list is
unchanged, the size message is shown, and the change callback does not
fire. -/
theorem c5_oversized_file_rejects_whole_batch (mk : FileData → String)
    (maxImages maxSizePerImage : Nat) (s : CombinedInput.State)
    (files : List FileData)
    (hcount : s.images.length + files.length ≤ maxImages)
    (htypes : ∀ f ∈ files, CombinedInput.allowedTypes.contains f.mimeType = true)
    (hover : files.any (fun f => f.size > maxSizePerImage * 1024 * 1024) = true) :
    (CombinedInput.processFiles mk maxImages maxSizePerImage s files).1.images = s.images ∧
    (CombinedInput.processFiles mk maxImages maxSizePerImage s files).1.error =
      "File size must be less than " ++ toString maxSizePerImage ++ "MB." ∧
    (CombinedInput.processFiles mk maxImages maxSizePerImage s files).2 = none := by
  unfold CombinedInput.processFiles
  have hc : ¬ s.images.length + files.length > maxImages := by omega
  have hmsg := CombinedInput.foldl_stepFile_error_of_types_ok mk maxSizePerImage
    s.images files ([], "") htypes
  rw [hover] at hmsg
  simp only [if_true] at hmsg
  simp [hc, hmsg, CombinedInput.sizeMessage_ne_empty maxSizePerImage]

/-- C9: resubmitting a file that duplicates an already accepted image (by
name and byte size) leaves the accepted image list — previews included —
unchanged, and the change callback either does not fire or fires with the
unchanged file list. -/
theorem c9_duplicate_resubmission_is_noop (mk : FileData → String)
    (maxImages maxSizePerImage : Nat) (s : CombinedInput.State) (f : FileData)
    (hdup : CombinedInput.isDuplicate s.images f = true) :
    (CombinedInput.processFiles mk maxImages maxSizePerImage s [f]).1.images = s.images ∧
    ((CombinedInput.processFiles mk maxImages maxSizePerImage s [f]).2 = none ∨
     (CombinedInput.processFiles mk maxImages maxSizePerImage s [f]).2 =
       some (s.images.map (·.file))) := by
  unfold CombinedInput.processFiles
  by_cases hc : maxImages < s.images.length + 1
  · simp [hc]
  · cases hv : CombinedInput.validateFile maxSizePerImage f with
    | some e =>
      by_cases he : e = ""
      · simp [hc, CombinedInput.stepFile, hv, he]
      · simp [hc, CombinedInput.stepFile, hv, he]
    | none =>
      simp [hc, CombinedInput.stepFile, hv, hdup]

end AssistantAidanFE

namespace AssistantAidanFE

/-- Witness for C3 amended: empty state, the same file in two successive
one-file batches. -/
theorem c3_dedup_across_batches_witness :
    ((CombinedInput.processFiles (fun f => f.name) 5 10
        (CombinedInput.processFiles (fun f => f.name) 5 10 ⟨[], ""⟩
          [⟨"a.png", 100, "image/png"⟩]).1
        [⟨"a.png", 100, "image/png"⟩]).1.images.filter
      (fun img => img.file.name == "a.png" && img.file.size == 100)).length = 1 ∧
    (CombinedInput.processFiles (fun f => f.name) 5 10
        (CombinedInput.processFiles (fun f => f.name) 5 10 ⟨[], ""⟩
          [⟨"a.png", 100, "image/png"⟩]).1
        [⟨"a.png", 100, "image/png"⟩]).1.error = "" :=
  c3_dedup_across_batches (fun f => f.name) 5 10 ⟨[], ""⟩ ⟨"a.png", 100, "image/png"⟩
    (by decide) (by decide) (by decide)

/-- Witness for C5: a two-file batch whose second file is one byte over
the default 10 MB limit. -/
theorem c5_oversized_file_rejects_whole_batch_witness :
    (CombinedInput.processFiles (fun f => f.name) 5 10 ⟨[], ""⟩
        [⟨"ok.png", 100, "image/png"⟩, ⟨"big.png", 10485761, "image/png"⟩]).1.images = [] ∧
    (CombinedInput.processFiles (fun f => f.name) 5 10 ⟨[], ""⟩
        [⟨"ok.png", 100, "image/png"⟩, ⟨"big.png", 10485761, "image/png"⟩]).1.error =
      "File size must be less than " ++ toString 10 ++ "MB." ∧
    (CombinedInput.processFiles (fun f => f.name) 5 10 ⟨[], ""⟩
        [⟨"ok.png", 100, "image/png"⟩, ⟨"big.png", 10485761, "image/png"⟩]).2 = none :=
  c5_oversized_file_rejects_whole_batch (fun f => f.name) 5 10 ⟨[], ""⟩
    [⟨"ok.png", 100, "image/png"⟩, ⟨"big.png", 10485761, "image/png"⟩]
    (by decide) (by decide) (by decide)

/-- Witness for C9: resubmitting an already accepted file. -/
theorem c9_duplicate_resubmission_is_noop_witness :
    (CombinedInput.processFiles (fun f => f.name) 5 10
        ⟨[⟨⟨"a.png", 100, "image/png"⟩, "a.png", "a.png", 100⟩], ""⟩
        [⟨"a.png", 100, "image/png"⟩]).1.images =
      [⟨⟨"a.png", 100, "image/png"⟩, "a.png", "a.png", 100⟩] ∧
    ((CombinedInput.processFiles (fun f => f.name) 5 10
        ⟨[⟨⟨"a.png", 100, "image/png"⟩, "a.png", "a.png", 100⟩], ""⟩
        [⟨"a.png", 100, "image/png"⟩]).2 = none ∨
     (CombinedInput.processFiles (fun f => f.name) 5 10
        ⟨[⟨⟨"a.png", 100, "image/png"⟩, "a.png", "a.png", 100⟩], ""⟩
        [⟨"a.png", 100, "image/png"⟩]).2 =
       some ([(⟨⟨"a.png", 100, "image/png"⟩, "a.png", "a.png", 100⟩ :
             CombinedInput.UploadedImage)].map (fun img => img.file))) :=
  c9_duplicate_resubmission_is_noop (fun f => f.name) 5 10
    ⟨[⟨⟨"a.png", 100, "image/png"⟩, "a.png", "a.png", 100⟩], ""⟩
    ⟨"a.png", 100, "image/png"⟩ (by decide)

/-- C4: after a successful upload, the OCR metadata of the Nth server
result (filename, detected keys, confidence) is merged into the Nth local
attached-image record, positionally, at every index. -/
theorem c4_positional_ocr_merge (s : UnifiedInputBox.State)
    (uploadedImages : List ImageUploader.UploadedImage)
    (resp : UnifiedInputBox.UploadResponse) (i : Nat)
    (hi : i < uploadedImages.length)
    (hlen : resp.images.length = uploadedImages.length)
    (hname : ∀ r ∈ resp.images, r.filename ≠ "") :
    ∃ (img : ImageUploader.UploadedImage) (r : UnifiedInputBox.ServerImage),
      uploadedImages[i]? = some img ∧
      resp.images[i]? = some r ∧
      (UnifiedInputBox.handleImagesSelectedOk s uploadedImages resp).images[i]? =
        some { preview := img.preview, filename := r.filename, size := img.size,
               detectedJiraKeys := r.detectedJiraKeys,
               ocrConfidence := r.ocrConfidence } := by
  have hi2 : i < resp.images.length := by omega
  obtain ⟨img, himg⟩ : ∃ img, uploadedImages[i]? = some img :=
    ⟨_, List.getElem?_eq_getElem hi⟩
  obtain ⟨r, hr⟩ : ∃ r, resp.images[i]? = some r :=
    ⟨_, List.getElem?_eq_getElem hi2⟩
  refine ⟨img, r, himg, hr, ?_⟩
  unfold UnifiedInputBox.handleImagesSelectedOk
  rw [List.getElem?_map, List.getElem?_enum, himg]
  have hrne : r.filename ≠ "" := hname r (List.getElem?_mem hr)
  simp [UnifiedInputBox.mergeImage, hr, hrne]

/-- Witness for C4 at a concrete one-image upload. -/
theorem c4_positional_ocr_merge_witness :
    ∃ (img : ImageUploader.UploadedImage) (r : UnifiedInputBox.ServerImage),
      [(⟨⟨"a.png", 3, "image/png"⟩, "pv", "a.png", 3⟩ :
          ImageUploader.UploadedImage)][0]? = some img ∧
      (⟨"sess-1", [⟨"srv.png", ["ABC-1"], 88⟩], ["ABC-1"]⟩ :
          UnifiedInputBox.UploadResponse).images[0]? = some r ∧
      (UnifiedInputBox.handleImagesSelectedOk ⟨[], none, [], false, none⟩
          [⟨⟨"a.png", 3, "image/png"⟩, "pv", "a.png", 3⟩]
          ⟨"sess-1", [⟨"srv.png", ["ABC-1"], 88⟩], ["ABC-1"]⟩).images[0]? =
        some { preview := img.preview, filename := r.filename, size := img.size,
               detectedJiraKeys := r.detectedJiraKeys,
               ocrConfidence := r.ocrConfidence } :=
  c4_positional_ocr_merge ⟨[], none, [], false, none⟩
    [⟨⟨"a.png", 3, "image/png"⟩, "pv", "a.png", 3⟩]
    ⟨"sess-1", [⟨"srv.png", ["ABC-1"], 88⟩], ["ABC-1"]⟩ 0
    (by decide) (by decide) (by decide)

/-- C6 counterexample: the enablement conditions are not gated only on
the action's own in-flight flag.  With text "X", not analyzing but
generating, the claim says Analyze is enabled, yet UnifiedInputBox
disables it; with text "X", analyzing but not generating, the claim says
Generate is enabled, yet UnifiedInputBox disables it; with
whitespace-only text and not generating, the claim says Generate is
disabled, yet the CombinedInput page variant enables it. -/
theorem c6_gating_counterexample :
    (jsTrim "X" ≠ "" ∧ UnifiedInputBox.analyzeDisabled "X" false true = true) ∧
    (jsTrim "X" ≠ "" ∧ UnifiedInputBox.generateDisabled "X" true false = true) ∧
    (jsTrim "   " = "" ∧ GeneratePage.generateDisabledV1 "   " false = false) := by
  decide

/-- C6 amended: in UnifiedInputBox, Analyze is enabled iff the trimmed
text is non-empty and neither flag is in flight, and Generate is enabled
iff the raw (untrimmed) text is non-empty and neither flag is in flight;
in the CombinedInput page variant, Analyze is enabled iff the trimmed
text is non-empty and not analyzing, and Generate is enabled iff the raw
text is non-empty and not generating. -/
theorem c6_gating_amended (value : String) (analyzing generating : Bool) :
    (UnifiedInputBox.analyzeDisabled value analyzing generating = false ↔
      (jsTrim value ≠ "" ∧ analyzing = false ∧ generating = false)) ∧
    (UnifiedInputBox.generateDisabled value analyzing generating = false ↔
      (value ≠ "" ∧ generating = false ∧ analyzing = false)) ∧
    (GeneratePage.analyzeDisabledV1 value analyzing = false ↔
      (jsTrim value ≠ "" ∧ analyzing = false)) ∧
    (GeneratePage.generateDisabledV1 value generating = false ↔
      (value ≠ "" ∧ generating = false)) := by
  cases analyzing <;> cases generating <;>
    simp [UnifiedInputBox.analyzeDisabled, UnifiedInputBox.generateDisabled,
      GeneratePage.analyzeDisabledV1, GeneratePage.generateDisabledV1]

/-- C7: with issue key "SDETPRO-123" and no active upload session,
analyze sends exactly one POST to /generations/prelight whose body is
exactly the issue key with no session field, whatever the call outcome. -/
theorem c7_analyze_without_session
    (outcome : GeneratePage.ApiOutcome GeneratePage.PrelightData) :
    (GeneratePage.analyze ⟨"SDETPRO-123", none, none, false, false⟩
        (UnifiedInputBox.handleAnalyzeArg none) outcome).2 =
      [⟨"POST", "/generations/prelight", ⟨"SDETPRO-123", none⟩⟩] := by
  have h1 : jsTrim "SDETPRO-123" = "SDETPRO-123" := by decide
  have h2 : ("SDETPRO-123" : String) ≠ "" := by decide
  simp [GeneratePage.analyze, UnifiedInputBox.handleAnalyzeArg, h1, h2]

/-- C8: a 401 response clears the stored credentials and, unless the
browser is already on the login or register page, issues exactly one
history-replacing navigation to /login; on those two pages no navigation
happens. -/
theorem c8_unauthorized_clears_auth_and_redirects (status : Option Nat)
    (pathname : String) (auth : ApiClient.AuthState)
    (h : status = some 401) :
    (ApiClient.responseInterceptorOnError status pathname auth).1.accessToken = none ∧
    (ApiClient.responseInterceptorOnError status pathname auth).1.user = none ∧
    (pathname ≠ "/login" ∧ pathname ≠ "/register" →
      (ApiClient.responseInterceptorOnError status pathname auth).2 =
        [ApiClient.NavEffect.replaceTo "/login"]) ∧
    ((pathname = "/login" ∨ pathname = "/register") →
      (ApiClient.responseInterceptorOnError status pathname auth).2 = []) := by
  subst h
  unfold ApiClient.responseInterceptorOnError ApiClient.logout
  by_cases hp : pathname ≠ "/login" ∧ pathname ≠ "/register"
  · simp [hp]
  · simp [hp]

/-- Witness for C8: a 401 on /dashboard with stored credentials. -/
theorem c8_unauthorized_clears_auth_and_redirects_witness :
    (ApiClient.responseInterceptorOnError (some 401) "/dashboard"
        ⟨some "tok", some "u"⟩).1.accessToken = none ∧
    (ApiClient.responseInterceptorOnError (some 401) "/dashboard"
        ⟨some "tok", some "u"⟩).1.user = none ∧
    ("/dashboard" ≠ "/login" ∧ "/dashboard" ≠ "/register" →
      (ApiClient.responseInterceptorOnError (some 401) "/dashboard"
          ⟨some "tok", some "u"⟩).2 = [ApiClient.NavEffect.replaceTo "/login"]) ∧
    (("/dashboard" = "/login" ∨ "/dashboard" = "/register") →
      (ApiClient.responseInterceptorOnError (some 401) "/dashboard"
          ⟨some "tok", some "u"⟩).2 = []) :=
  c8_unauthorized_clears_auth_and_redirects (some 401) "/dashboard"
    ⟨some "tok", some "u"⟩ rfl

/-- C10: with an empty or whitespace-only issue key, analyze and
performGeneration return before sending any request and leave the whole
page state (result slots and both in-flight flags) unchanged. -/
theorem c10_blank_issue_key_noop (s : GeneratePage.PageState)
    (h : jsTrim s.issueKey = "")
    (sid1 sid2 : Option String)
    (o1 : GeneratePage.ApiOutcome GeneratePage.PrelightData)
    (o2 : GeneratePage.ApiOutcome GeneratePage.GenData) :
    GeneratePage.analyze s sid1 o1 = (s, []) ∧
    GeneratePage.performGeneration s sid2 o2 = (s, []) := by
  unfold GeneratePage.analyze GeneratePage.performGeneration
  simp [h]

/-- Witness for C10: a whitespace-only issue key. -/
theorem c10_blank_issue_key_noop_witness :
    GeneratePage.analyze ⟨"   ", none, none, false, false⟩ (some "sess-1")
        (GeneratePage.ApiOutcome.failure none) =
      (⟨"   ", none, none, false, false⟩, []) ∧
    GeneratePage.performGeneration ⟨"   ", none, none, false, false⟩ (some "sess-1")
        (GeneratePage.ApiOutcome.failure none) =
      (⟨"   ", none, none, false, false⟩, []) :=
  c10_blank_issue_key_noop ⟨"   ", none, none, false, false⟩ (by decide)
    (some "sess-1") (some "sess-1") (GeneratePage.ApiOutcome.failure none)
    (GeneratePage.ApiOutcome.failure none)

end AssistantAidanFE
